import Mathlib

/-!
Shallow embedding of `explain_query_spark.py`, a command-line tool that
reads a TPC-H or TPC-DS benchmark query file, transpiles it from the
DuckDB SQL dialect to Spark SQL via sqlglot, and prints the Spark
physical plan.

The script's own logic (argument validation, path construction, file
reading, printing, error handling, session lifecycle) is embedded as a
pure function `main_run` over an environment `Env` that supplies the
external collaborators: the file system, the sqlglot transpiler, the
Spark session, the table-creation effects and the plan generator.
Each call to Python `print` becomes one element of the `output` list of
the run result, in order.
-/

/-- Models Python `str.lower()` on the ASCII fragment relevant to this
tool (the benchmark names and their case variants are ASCII). -/
def pyLower (s : String) : String := String.mk (s.data.map Char.toLower)

/-- Drop leading whitespace characters from a character list. -/
def dropLeadingWs : List Char → List Char
  | [] => []
  | c :: t => if c.isWhitespace then dropLeadingWs t else c :: t

/-- Models Python string stripping of surrounding whitespace as done by
`int()` before parsing: drop whitespace from both ends. -/
def pyStrip (l : List Char) : List Char :=
  (dropLeadingWs ((dropLeadingWs l).reverse)).reverse

/-- Numeric value of a decimal digit character. -/
def digitVal (c : Char) : Nat := c.toNat - 48

/-- Value of a list of decimal digit characters, most significant first. -/
def decimalValue (l : List Char) : Nat :=
  l.foldl (fun acc c => 10 * acc + digitVal c) 0

/-- Parse a nonempty all-digit character list to a natural number. -/
def parseDigits (l : List Char) : Option Nat :=
  if l.isEmpty then none
  else if l.all Char.isDigit then some (decimalValue l) else none

/-- Models the Python builtin `int(s)` on the fragment relevant here:
surrounding whitespace is stripped, an optional single sign is allowed,
and the remainder must be one or more decimal digits; any other string
raises `ValueError`, modelled as `none`. -/
def pyInt (s : String) : Option Int :=
  match pyStrip s.data with
  | '-' :: rest => (parseDigits rest).map (fun n => -(n : Int))
  | '+' :: rest => (parseDigits rest).map (fun n => (n : Int))
  | l => (parseDigits l).map (fun n => (n : Int))

/-- Embeds `get_query_path` (explain_query_spark.py lines 23-32).
`script_dir` stands for `os.path.dirname(os.path.abspath(__file__))`,
an absolute directory path without a trailing separator, so
`os.path.join` is string concatenation with a single separator.
Python `f"\x7bquery_number\x7d"` on an int is `str`, which Lean's
`toString` on `Int` matches. The `else` branch raises `ValueError`,
modelled as `Except.error`. -/
def get_query_path (script_dir : String) (benchmark : String)
    (query_number : Int) : Except String String :=
  if benchmark = "tpc-h" then
    Except.ok (script_dir ++ "/queries-tpc-h/" ++ toString query_number ++ ".sql")
  else if benchmark = "tpc-ds" then
    Except.ok (script_dir ++ "/queries-tpc-ds/query" ++ toString query_number ++ ".sql")
  else
    Except.error ("Unknown benchmark: " ++ benchmark ++ ". Use \x27tpc-h\x27 or \x27tpc-ds\x27.")

/-- Embeds `read_query` (lines 35-41) over a file-system model
`fs : path -> Option contents`: `os.path.exists` is `(fs p).isSome`,
and a missing path raises `FileNotFoundError` with the shown message,
modelled as `Except.error`. -/
def read_query (fs : String → Option String) (filepath : String) :
    Except String String :=
  match fs filepath with
  | none => Except.error ("Query file not found: " ++ filepath)
  | some contents => Except.ok contents

/-- Embeds `translate_to_spark` (lines 44-50). The external call
`sqlglot.transpile(query, read="duckdb", write="spark", pretty=True)`
is the parameter `transpile`, returning the list of transpiled statement
strings or an exception message; the wrapper joins the list with a
newline, and re-raises any failure as `RuntimeError` with the shown
message prefix. -/
def translate_to_spark (transpile : String → Except String (List String))
    (query : String) : Except String String :=
  match transpile query with
  | Except.ok translated => Except.ok (String.intercalate "\n" translated)
  | Except.error e => Except.error ("Failed to translate query: " ++ e)

/-- Embeds `get_physical_plan` (lines 53-62). The external call
`spark.sql(query)" ... explainString(...)` is the parameter `planOf`;
any failure is re-raised as `RuntimeError` with the shown prefix. -/
def get_physical_plan (planOf : String → Except String String)
    (query : String) : Except String String :=
  match planOf query with
  | Except.ok p => Except.ok p
  | Except.error e => Except.error ("Failed to get physical plan: " ++ e)

/-- Environment of external collaborators for one run: the script
directory, the file system, and the outcomes of the external effects
invoked by `main` (sqlglot transpilation, `create_spark_session`,
`create_tpc_h_tables`, `create_tpc_ds_tables`, and Spark plan
generation). -/
structure Env where
  script_dir : String
  fs : String → Option String
  sqlglot_transpile : String → Except String (List String)
  create_spark_session : Except String Unit
  create_tpc_h_tables : Except String Unit
  create_tpc_ds_tables : Except String Unit
  spark_plan : String → Except String String

/-- How one run of the process ends: `exited c` is a normal process
exit with status `c` (covering both `sys.exit` and falling off the end
of `main`), `raised m` is an uncaught Python exception with message
`m`. -/
inductive Outcome where
  | exited (code : Nat)
  | raised (msg : String)
deriving DecidableEq

/-- True exactly on the uncaught-exception outcome. -/
def Outcome.isRaised : Outcome → Bool
  | Outcome.raised _ => true
  | _ => false

/-- Observable result of one run: the outcome, the list of `print`
calls in order, whether `create_spark_session` returned a session
(Python: `spark` is not `None`), and whether `spark.stop()` was called
before the process ended (the `finally` block at lines 794-796). -/
structure RunResult where
  outcome : Outcome
  output : List String
  sessionOpened : Bool
  sessionClosed : Bool
deriving DecidableEq

/-- The module docstring `__doc__`, printed on wrong argument count. -/
def moduleDoc : String :=
  "\nScript to translate TPC-H/TPC-DS queries to Spark SQL and print their physical plans.\n\nUsage:\n    python explain_query.py <benchmark> <query_number>\n    \nArguments:\n    benchmark: \x27tpc-h\x27 or \x27tpc-ds\x27\n    query_number: The query number to explain\n\nExample:\n    python explain_query.py tpc-h 1\n    python explain_query.py tpc-ds 42\n"

/-- The 60-character separator line `"=" * 60`. -/
def sep60 : String := String.mk (List.replicate 60 '=')

/-- One `print("\n" + "=" * 60)` call: a blank line then the separator. -/
def sepBlock : String := "\n" ++ sep60

/-- Embeds `main` (lines 729-796) as a pure function of the environment
and `sys.argv` (the script name followed by the arguments). Each
`print(x)` appends `x` to `output`. `sys.exit(1)` inside a handler is
`Outcome.exited 1`; normal return is `Outcome.exited 0`; the one
uncaught-exception path (a `ValueError` escaping `get_query_path`) is
`Outcome.raised`. The `finally` block stops the session whenever
`create_spark_session` returned one, including on the error paths,
which `sessionClosed` records. -/
def main_run (env : Env) (argv : List String) : RunResult :=
  match argv with
  | [_, arg1, arg2] =>
    let benchmark := pyLower arg1
    match pyInt arg2 with
    | none =>
      { outcome := Outcome.exited 1
        output := ["Error: Query number must be an integer, got \x27" ++ arg2 ++ "\x27"]
        sessionOpened := false, sessionClosed := false }
    | some query_number =>
      if ¬ (benchmark = "tpc-h" ∨ benchmark = "tpc-ds") then
        { outcome := Outcome.exited 1
          output := ["Error: Benchmark must be \x27tpc-h\x27 or \x27tpc-ds\x27, got \x27" ++ benchmark ++ "\x27"]
          sessionOpened := false, sessionClosed := false }
      else
        match get_query_path env.script_dir benchmark query_number with
        | Except.error e =>
          { outcome := Outcome.raised e, output := []
            sessionOpened := false, sessionClosed := false }
        | Except.ok query_path =>
          let out0 := ["Reading query from: " ++ query_path]
          match read_query env.fs query_path with
          | Except.error e =>
            { outcome := Outcome.exited 1, output := out0 ++ ["Error: " ++ e]
              sessionOpened := false, sessionClosed := false }
          | Except.ok original_query =>
            let out1 := out0 ++ [sepBlock, "ORIGINAL QUERY:", sep60, original_query,
              sepBlock, "TRANSLATED TO SPARK SQL:", sep60]
            match translate_to_spark env.sqlglot_transpile original_query with
            | Except.error e =>
              { outcome := Outcome.exited 1, output := out1 ++ ["Error: " ++ e]
                sessionOpened := false, sessionClosed := false }
            | Except.ok spark_query =>
              let out2 := out1 ++ [spark_query, sepBlock, "SPARK PHYSICAL PLAN:", sep60]
              match env.create_spark_session with
              | Except.error e =>
                { outcome := Outcome.exited 1
                  output := out2 ++ ["Error getting physical plan: " ++ e]
                  sessionOpened := false, sessionClosed := false }
              | Except.ok _ =>
                match (if benchmark = "tpc-h" then env.create_tpc_h_tables
                       else env.create_tpc_ds_tables) with
                | Except.error e =>
                  { outcome := Outcome.exited 1
                    output := out2 ++ ["Error getting physical plan: " ++ e]
                    sessionOpened := true, sessionClosed := true }
                | Except.ok _ =>
                  match get_physical_plan env.spark_plan spark_query with
                  | Except.error e =>
                    { outcome := Outcome.exited 1
                      output := out2 ++ ["Error getting physical plan: " ++ e]
                      sessionOpened := true, sessionClosed := true }
                  | Except.ok plan =>
                    { outcome := Outcome.exited 0, output := out2 ++ [plan]
                      sessionOpened := true, sessionClosed := true }
  | _ =>
    { outcome := Outcome.exited 1, output := [moduleDoc]
      sessionOpened := false, sessionClosed := false }

/-- A concrete demonstration file system holding one TPC-H query file. -/
def demoFs : String → Option String :=
  fun p => if p = "/app/queries-tpc-h/1.sql" then some "SELECT 1" else
           if p = "/app/queries-tpc-ds/query1.sql" then some "SELECT 2" else none

/-- A concrete demonstration environment in which every external
collaborator succeeds. -/
def demoEnv : Env :=
  { script_dir := "/app"
    fs := demoFs
    sqlglot_transpile := fun q => Except.ok [q]
    create_spark_session := Except.ok ()
    create_tpc_h_tables := Except.ok ()
    create_tpc_ds_tables := Except.ok ()
    spark_plan := fun _ => Except.ok "== Physical Plan ==" }

/-- A second demonstration environment, differing from `demoEnv` only
in the engine session's plan generator. -/
def demoEnvAlt : Env :=
  { demoEnv with spark_plan := fun _ => Except.error "AnalysisException" }

/-- Does `pat` occur as a contiguous sublist of the first list? -/
def charListContains : List Char → List Char → Bool
  | [], pat => pat.isEmpty
  | c :: t, pat => pat.isPrefixOf (c :: t) || charListContains t pat

/-- Substring test: does `hay` contain `pat`? -/
def strContains (hay pat : String) : Bool := charListContains hay.data pat.data

/-- A validated benchmark name never reaches the `ValueError` branch of
`get_query_path`. -/
theorem get_query_path_valid_not_error {dir b : String} {n : Int} {e : String}
    (hb : b = "tpc-h" ∨ b = "tpc-ds")
    (h : get_query_path dir b n = Except.error e) : False := by
  rcases hb with hb | hb <;> subst hb <;> simp [get_query_path] at h

/-- Every branch of `main_run` calls `spark.stop()` exactly when
`create_spark_session` returned a session: the two flags always agree. -/
theorem main_run_sessionClosed_eq_sessionOpened (env : Env) (argv : List String) :
    (main_run env argv).sessionClosed = (main_run env argv).sessionOpened := by
  simp only [main_run]
  repeat' split
  all_goals rfl

/-- `get_query_path` returns `ok` only for the two validated benchmarks,
and then yields the per-benchmark path template. -/
theorem get_query_path_ok_cases {dir b : String} {n : Int} {p : String}
    (h : get_query_path dir b n = Except.ok p) :
    (b = "tpc-h" ∧ p = dir ++ "/queries-tpc-h/" ++ toString n ++ ".sql") ∨
    (b = "tpc-ds" ∧ p = dir ++ "/queries-tpc-ds/query" ++ toString n ++ ".sql") := by
  unfold get_query_path at h
  split at h
  all_goals try (split at h)
  all_goals simp_all

/-- A successful `get_query_path` certifies that the benchmark was one of
the two recognized names. -/
theorem get_query_path_ok_valid {dir b : String} {n : Int} {p : String}
    (h : get_query_path dir b n = Except.ok p) :
    b = "tpc-h" ∨ b = "tpc-ds" :=
  (get_query_path_ok_cases h).elim (fun hc => Or.inl hc.1) (fun hc => Or.inr hc.1)

/-- Whatever the benchmark and integer argument, the run whose benchmark
passed validation prints the resolved path first, in all later branches. -/
theorem main_run_first_line (env : Env) (a0 b q p : String) (n : Int)
    (hq : pyInt q = some n)
    (hp : get_query_path env.script_dir (pyLower b) n = Except.ok p) :
    (main_run env [a0, b, q]).output.head? = some ("Reading query from: " ++ p) := by
  have hb := get_query_path_ok_valid hp
  simp only [main_run, hq]
  rw [if_neg (not_not_intro hb)]
  simp only [hp]
  repeat' split
  all_goals rfl

/-- C1: for every run in which a Spark session was successfully created,
the session is stopped before the process exits, whether table creation
or plan generation failed or the run succeeded; no run ends with a live
session. -/
theorem C1_session_always_released (env : Env) (argv : List String)
    (h : (main_run env argv).sessionOpened = true) :
    (main_run env argv).sessionClosed = true := by
  rw [main_run_sessionClosed_eq_sessionOpened]
  exact h

/-- Witness for C1 at a concrete successful run. -/
theorem C1_session_always_released_witness :
    (main_run demoEnv ["explain_query.py", "tpc-h", "1"]).sessionOpened = true ∧
    (main_run demoEnv ["explain_query.py", "tpc-h", "1"]).sessionClosed = true :=
  ⟨by decide,
   C1_session_always_released demoEnv ["explain_query.py", "tpc-h", "1"] (by decide)⟩

/-- C10: the Unknown-benchmark `ValueError` branch of `get_query_path`
is unreachable from `main`: whenever `main` reaches the path
construction, the benchmark is already validated, so no run of the tool
ends in an uncaught exception. -/
theorem C10_unknown_benchmark_branch_unreachable (env : Env) (argv : List String) :
    Outcome.isRaised (main_run env argv).outcome = false := by
  simp only [main_run]
  repeat' split
  all_goals try rfl
  all_goals
    exfalso
    exact get_query_path_valid_not_error (not_not.mp (by assumption)) (by assumption)

/-- C9: the benchmark argument is lowercased before validation and path
construction, so any two first arguments with the same lowercasing give
identical runs. -/
theorem C9_benchmark_case_insensitive (env : Env) (a0 b c q : String)
    (h : pyLower b = pyLower c) :
    main_run env [a0, b, q] = main_run env [a0, c, q] := by
  simp only [main_run]
  rw [h]

/-- Witness for C9: the claim's own example, `TPC-H` accepted exactly as
`tpc-h`. -/
theorem C9_benchmark_case_insensitive_witness :
    pyLower "TPC-H" = pyLower "tpc-h" ∧
    main_run demoEnv ["explain_query.py", "TPC-H", "1"] =
      main_run demoEnv ["explain_query.py", "tpc-h", "1"] :=
  ⟨by decide,
   C9_benchmark_case_insensitive demoEnv "explain_query.py" "TPC-H" "tpc-h" "1" (by decide)⟩

/-- C4: for every integer query number, the run's first printed line
shows the resolved path: the script directory joined with
`queries-tpc-h/<n>.sql` when the (lowercased) benchmark is `tpc-h` and
with `queries-tpc-ds/query<n>.sql` when it is `tpc-ds`. -/
theorem C4_query_path_templates (env : Env) (a0 q : String) (n : Int)
    (hq : pyInt q = some n) :
    (∀ b, pyLower b = "tpc-h" →
      (main_run env [a0, b, q]).output.head? =
        some ("Reading query from: " ++
          (env.script_dir ++ "/queries-tpc-h/" ++ toString n ++ ".sql"))) ∧
    (∀ b, pyLower b = "tpc-ds" →
      (main_run env [a0, b, q]).output.head? =
        some ("Reading query from: " ++
          (env.script_dir ++ "/queries-tpc-ds/query" ++ toString n ++ ".sql"))) := by
  constructor <;> intro b hb <;>
    exact main_run_first_line env a0 b q _ n hq (by rw [hb]; simp [get_query_path])

/-- Witness for C4 at both benchmarks with query number 1. -/
theorem C4_query_path_templates_witness :
    (main_run demoEnv ["explain_query.py", "tpc-h", "1"]).output.head? =
      some ("Reading query from: " ++
        (demoEnv.script_dir ++ "/queries-tpc-h/" ++ toString (1 : Int) ++ ".sql")) ∧
    (main_run demoEnv ["explain_query.py", "tpc-ds", "1"]).output.head? =
      some ("Reading query from: " ++
        (demoEnv.script_dir ++ "/queries-tpc-ds/query" ++ toString (1 : Int) ++ ".sql")) :=
  ⟨(C4_query_path_templates demoEnv "explain_query.py" "1" 1 (by decide)).1 "tpc-h" (by decide),
   (C4_query_path_templates demoEnv "explain_query.py" "1" 1 (by decide)).2 "tpc-ds" (by decide)⟩

/-- C5: a valid benchmark and integer query number whose resolved file
does not exist yields exit status 1 and a file-not-found message that
contains the constructed path. -/
theorem C5_missing_file_error (env : Env) (a0 b q p : String) (n : Int)
    (hq : pyInt q = some n)
    (hp : get_query_path env.script_dir (pyLower b) n = Except.ok p)
    (hmiss : env.fs p = none) :
    (main_run env [a0, b, q]).outcome = Outcome.exited 1 ∧
    (main_run env [a0, b, q]).output =
      ["Reading query from: " ++ p, "Error: Query file not found: " ++ p] := by
  have hb := get_query_path_ok_valid hp
  simp only [main_run, hq]
  rw [if_neg (not_not_intro hb)]
  simp only [hp]
  unfold read_query
  simp only [hmiss]
  exact ⟨trivial, rfl⟩

/-- Witness for C5 at a concrete run whose query file is absent. -/
theorem C5_missing_file_error_witness :
    pyInt "2" = some 2 ∧
    demoEnv.fs "/app/queries-tpc-h/2.sql" = none ∧
    (main_run demoEnv ["explain_query.py", "tpc-h", "2"]).outcome = Outcome.exited 1 ∧
    (main_run demoEnv ["explain_query.py", "tpc-h", "2"]).output =
      ["Reading query from: " ++ "/app/queries-tpc-h/2.sql",
       "Error: Query file not found: " ++ "/app/queries-tpc-h/2.sql"] :=
  ⟨by decide, by decide,
   C5_missing_file_error demoEnv "explain_query.py" "tpc-h" "2" "/app/queries-tpc-h/2.sql" 2
     (by decide) (by rfl) (by decide)⟩

/-- C6: a run in which every stage succeeds prints, in order, the
resolved path, the original query under its header, the translated
query under its header, and the plan under its header, and exits 0. -/
theorem C6_success_output (env : Env) (a0 b q p orig : String) (n : Int)
    (tl : List String) (plan : String)
    (hq : pyInt q = some n)
    (hp : get_query_path env.script_dir (pyLower b) n = Except.ok p)
    (hfile : env.fs p = some orig)
    (htr : env.sqlglot_transpile orig = Except.ok tl)
    (hsess : env.create_spark_session = Except.ok ())
    (hth : env.create_tpc_h_tables = Except.ok ())
    (htd : env.create_tpc_ds_tables = Except.ok ())
    (hplan : env.spark_plan (String.intercalate "\n" tl) = Except.ok plan) :
    (main_run env [a0, b, q]).outcome = Outcome.exited 0 ∧
    (main_run env [a0, b, q]).output =
      ["Reading query from: " ++ p,
       sepBlock, "ORIGINAL QUERY:", sep60, orig,
       sepBlock, "TRANSLATED TO SPARK SQL:", sep60,
       String.intercalate "\n" tl,
       sepBlock, "SPARK PHYSICAL PLAN:", sep60,
       plan] := by
  have hb := get_query_path_ok_valid hp
  have htab : (if pyLower b = "tpc-h" then env.create_tpc_h_tables
      else env.create_tpc_ds_tables) = Except.ok () := by
    rcases hb with h | h <;> rw [h] <;> simp [hth, htd]
  simp only [main_run, hq]
  rw [if_neg (not_not_intro hb)]
  simp only [hp]
  unfold read_query
  simp only [hfile]
  unfold translate_to_spark
  simp only [htr]
  simp only [hsess, htab]
  unfold get_physical_plan
  simp only [hplan]
  exact ⟨trivial, rfl⟩

/-- Witness for C6 at a concrete all-stages-succeed run. -/
theorem C6_success_output_witness :
    (main_run demoEnv ["explain_query.py", "tpc-h", "1"]).outcome = Outcome.exited 0 ∧
    (main_run demoEnv ["explain_query.py", "tpc-h", "1"]).output =
      ["Reading query from: " ++ "/app/queries-tpc-h/1.sql",
       sepBlock, "ORIGINAL QUERY:", sep60, "SELECT 1",
       sepBlock, "TRANSLATED TO SPARK SQL:", sep60,
       String.intercalate "\n" ["SELECT 1"],
       sepBlock, "SPARK PHYSICAL PLAN:", sep60,
       "== Physical Plan =="] :=
  C6_success_output demoEnv "explain_query.py" "tpc-h" "1" "/app/queries-tpc-h/1.sql"
    "SELECT 1" 1 ["SELECT 1"] "== Physical Plan =="
    (by decide) (by rfl) (by rfl) (by rfl) (by rfl) (by rfl) (by rfl) (by rfl)

/-- C7: two runs with identical arguments, script directory, file
system and transpiler print identical original-query and
translated-query sections (everything before the plan text), whatever
the engine session does. -/
theorem C7_pre_plan_output_deterministic (env1 env2 : Env) (argv : List String)
    (hdir : env1.script_dir = env2.script_dir)
    (hfs : env1.fs = env2.fs)
    (htr : env1.sqlglot_transpile = env2.sqlglot_transpile) :
    (main_run env1 argv).output.take 12 = (main_run env2 argv).output.take 12 := by
  obtain ⟨d1, f1, t1, s1, th1, td1, p1⟩ := env1
  obtain ⟨d2, f2, t2, s2, th2, td2, p2⟩ := env2
  dsimp only at hdir hfs htr
  subst hdir hfs htr
  simp only [main_run]
  repeat' split
  all_goals rfl

/-- Witness for C7: same arguments, file system and transpiler but a
different engine give identical pre-plan output. -/
theorem C7_pre_plan_output_deterministic_witness :
    demoEnv.script_dir = demoEnvAlt.script_dir ∧
    demoEnv.fs = demoEnvAlt.fs ∧
    demoEnv.sqlglot_transpile = demoEnvAlt.sqlglot_transpile ∧
    (main_run demoEnv ["explain_query.py", "tpc-h", "1"]).output.take 12 =
      (main_run demoEnvAlt ["explain_query.py", "tpc-h", "1"]).output.take 12 :=
  ⟨rfl, rfl, rfl,
   C7_pre_plan_output_deterministic demoEnv demoEnvAlt
     ["explain_query.py", "tpc-h", "1"] rfl rfl rfl⟩

/-- C8: every run either succeeds with exit status 0, or exits with
status 1 having printed a message, the last printed item being the
usage text or an error message; no later stage runs after a failure. -/
theorem C8_every_failure_prints_and_exits_nonzero (env : Env) (argv : List String) :
    (main_run env argv).outcome = Outcome.exited 0 ∨
    ((main_run env argv).outcome = Outcome.exited 1 ∧
      ∃ msg, (main_run env argv).output.getLast? = some msg ∧
        (msg = moduleDoc ∨ msg.data.take 5 = "Error".data)) := by
  simp only [main_run]
  repeat' split
  all_goals first
    | exact Or.inl rfl
    | exact Or.inr ⟨rfl, moduleDoc, rfl, Or.inl rfl⟩
    | exact Or.inr ⟨rfl, _, rfl, Or.inr rfl⟩
    | (exfalso
       exact get_query_path_valid_not_error (not_not.mp (by assumption)) (by assumption))

/-- C2 counterexample: on input benchmark `tpc-x` and query number
`abc`, the benchmark is (after lowercasing) unrecognized and the tool
exits non-zero, but the integer check fires first, so no printed line
contains the invalid benchmark value `tpc-x`, contradicting the claim
that the error message always names it. -/
theorem C2_counterexample :
    (pyLower "tpc-x" ≠ "tpc-h" ∧ pyLower "tpc-x" ≠ "tpc-ds") ∧
    (main_run demoEnv ["explain_query.py", "tpc-x", "abc"]).outcome = Outcome.exited 1 ∧
    (∀ line ∈ (main_run demoEnv ["explain_query.py", "tpc-x", "abc"]).output,
      strContains line "tpc-x" = false) := by
  decide

/-- C2 (amended): when the argument count is right and the query-number
argument parses as an integer, an unrecognized benchmark makes the tool
exit with status 1 and print exactly one message, which embeds the
invalid (lowercased) benchmark value, and the run never touches the
file system (the result is the same under every file system). -/
theorem C2_invalid_benchmark_rejected (env : Env) (a0 b q : String) (n : Int)
    (hq : pyInt q = some n)
    (h1 : pyLower b ≠ "tpc-h") (h2 : pyLower b ≠ "tpc-ds") :
    (main_run env [a0, b, q]).outcome = Outcome.exited 1 ∧
    (main_run env [a0, b, q]).output =
      ["Error: Benchmark must be \x27tpc-h\x27 or \x27tpc-ds\x27, got \x27" ++ pyLower b ++ "\x27"] ∧
    (∀ fsAlt, main_run { env with fs := fsAlt } [a0, b, q] = main_run env [a0, b, q]) := by
  have hcond : ¬(pyLower b = "tpc-h" ∨ pyLower b = "tpc-ds") := not_or.mpr ⟨h1, h2⟩
  refine ⟨?_, ?_, fun fsAlt => ?_⟩
  · simp only [main_run, hq]
    rw [if_pos hcond]
  · simp only [main_run, hq]
    rw [if_pos hcond]
  · simp only [main_run, hq]
    rw [if_pos hcond, if_pos hcond]

/-- Witness for the amended C2 at the concrete invalid benchmark
`tpc-x` with integer query number `7`. -/
theorem C2_invalid_benchmark_rejected_witness :
    pyInt "7" = some 7 ∧ pyLower "tpc-x" ≠ "tpc-h" ∧ pyLower "tpc-x" ≠ "tpc-ds" ∧
    ((main_run demoEnv ["explain_query.py", "tpc-x", "7"]).outcome = Outcome.exited 1 ∧
     (main_run demoEnv ["explain_query.py", "tpc-x", "7"]).output =
       ["Error: Benchmark must be \x27tpc-h\x27 or \x27tpc-ds\x27, got \x27" ++ pyLower "tpc-x" ++ "\x27"] ∧
     (∀ fsAlt, main_run { demoEnv with fs := fsAlt } ["explain_query.py", "tpc-x", "7"] =
        main_run demoEnv ["explain_query.py", "tpc-x", "7"])) :=
  ⟨by decide, by decide, by decide,
   C2_invalid_benchmark_rejected demoEnv "explain_query.py" "tpc-x" "7" 7
     (by decide) (by decide) (by decide)⟩

/-- C3 counterexample: the query-number argument `-1` is not a positive
integer, yet it passes validation (it parses as the integer -1) and the
run goes on to the file stage: it performs the existence check on the
constructed path and fails with the file-not-found message, not with a
validation error before file I/O, contradicting the claim. -/
theorem C3_counterexample :
    pyInt "-1" = some (-1) ∧ ¬ ((0 : Int) < -1) ∧
    (main_run demoEnv ["explain_query.py", "tpc-h", "-1"]).outcome = Outcome.exited 1 ∧
    (main_run demoEnv ["explain_query.py", "tpc-h", "-1"]).output =
      ["Reading query from: /app/queries-tpc-h/-1.sql",
       "Error: Query file not found: /app/queries-tpc-h/-1.sql"] := by
  decide

/-- C3 (amended): the query-number argument is validated only to parse
as an integer (sign allowed, zero and negatives accepted); every run
whose query-number argument does not parse as an integer exits with
status 1 printing exactly the integer usage error, before any file
access (the result is the same under every file system); non-positive
integers instead pass validation and are caught only by the
missing-file check. -/
theorem C3_nonint_rejected_before_io (env : Env) (a0 b q : String)
    (hq : pyInt q = none) :
    (main_run env [a0, b, q]).outcome = Outcome.exited 1 ∧
    (main_run env [a0, b, q]).output =
      ["Error: Query number must be an integer, got \x27" ++ q ++ "\x27"] ∧
    (∀ fsAlt, main_run { env with fs := fsAlt } [a0, b, q] = main_run env [a0, b, q]) := by
  refine ⟨?_, ?_, fun fsAlt => ?_⟩ <;> simp only [main_run, hq]

/-- Witness for the amended C3 at the concrete non-integer argument
`abc`. -/
theorem C3_nonint_rejected_before_io_witness :
    pyInt "abc" = none ∧
    ((main_run demoEnv ["explain_query.py", "tpc-h", "abc"]).outcome = Outcome.exited 1 ∧
     (main_run demoEnv ["explain_query.py", "tpc-h", "abc"]).output =
       ["Error: Query number must be an integer, got \x27" ++ "abc" ++ "\x27"] ∧
     (∀ fsAlt, main_run { demoEnv with fs := fsAlt } ["explain_query.py", "tpc-h", "abc"] =
        main_run demoEnv ["explain_query.py", "tpc-h", "abc"])) :=
  ⟨by decide,
   C3_nonint_rejected_before_io demoEnv "explain_query.py" "tpc-h" "abc" (by decide)⟩
